import Mathlib

/-!
Shallow embedding of the diary web application's moderation / visibility
workflow (diary/models.py, diary/views.py, diary/forms.py) and of the
registration flow (users/forms.py, users/views.py).

Conventions of the embedding:
* the persistent store is passed explicitly (a `List` of rows);
* Django's `F("views") + 1` relative update followed by `refresh_from_db`
  becomes the functional update of the row's `views` field;
* `send_mail` calls are collected in a returned list of `Email` values;
* exceptional exits (`PermissionDenied`, `Http404`, and the unguarded
  `diary.author.email` dereference when `author` is NULL) become the
  error side of `Except`;
* the external transliteration routine `pytils.translit.slugify` is a
  parameter `slugify : String → String` of every function that uses it.
-/

/-- The `status` CharField choices of the `Diary` model
(`STATUS_CHOICES` in diary/models.py). -/
inductive Status
  | published
  | no_published
  | moderation
  | rejected
deriving DecidableEq, Repr

/-- A user row, reduced to the fields the diary workflow reads: the primary
key and the `email` login field (users/models.py). -/
structure User where
  id : Nat
  email : String
deriving DecidableEq, Repr

/-- `request.user` in a Django view: either `AnonymousUser` or an
authenticated `User` row. It is never `None`. -/
inductive Requester
  | anonymous
  | user (u : User)
deriving DecidableEq, Repr

/-- A `Diary` row (diary/models.py). `slug` is a nullable SlugField; the
empty string stands for NULL/blank, matching Python's `if not self.slug`
truthiness test in `Diary.save`. `author` is a nullable foreign key
(`on_delete=SET_NULL`). `views` is an IntegerField defaulting to 0. -/
structure Diary where
  title : String
  content : String
  slug : String
  author : Option User
  is_published : Bool
  status : Status
  views : Int
deriving DecidableEq, Repr

/-- One `send_mail` call: its subject and recipient list. -/
structure Email where
  subject : String
  recipient_list : List String
deriving DecidableEq, Repr

/-- The error taxonomy of the HTTP surface: `Http404` (not-found),
`PermissionDenied` (403), and the uncaught `AttributeError` raised by
dereferencing `diary.author.email` when `author` is NULL. -/
inductive HttpError
  | notFound
  | accessDenied
  | nullDeref
deriving DecidableEq, Repr

/-- The Python comparison `self.request.user == diary.author`:
`AnonymousUser` never equals a user row, and no requester equals `None`. -/
def requestUserEqAuthor : Requester → Option User → Bool
  | Requester.user u, some a => u == a
  | _, _ => false

/-- The notification `send_mail` in `DiaryDetailView.get_object`
(diary/views.py line 113): subject "Уведомление", addressed to
`diary.author.email`. -/
def notification_email (authorEmail : String) : Email :=
  { subject := "Уведомление", recipient_list := [authorEmail] }

/-- The tail of `DiaryDetailView.get_object` after the access check and
conditional increment (diary/views.py lines 106-120): if `diary.views >= 100`
send one notification to `diary.author.email` — an unguarded dereference that
raises when `author` is NULL — then return the object. -/
def notify_step (diary : Diary) : Except HttpError (Diary × List Email) :=
  if diary.views ≥ 100 then
    match diary.author with
    | none => Except.error HttpError.nullDeref
    | some a => Except.ok (diary, [notification_email a.email])
  else
    Except.ok (diary, [])

/-- `DiaryDetailView.get_object` (diary/views.py lines 90-120), applied to the
row found by slug: raise `PermissionDenied` when the entry is unpublished and
the requester is not its author; otherwise, for published entries only, apply
the atomic relative update `views = F("views") + 1` and refresh; then run the
notification step and return the (refreshed) row together with the emails
sent. The returned row is also the post-state of the store row. -/
def get_object (request_user : Requester) (diary : Diary) :
    Except HttpError (Diary × List Email) :=
  if diary.is_published = false ∧ requestUserEqAuthor request_user diary.author = false then
    Except.error HttpError.accessDenied
  else if diary.is_published then
    notify_step { diary with views := diary.views + 1 }
  else
    notify_step diary

/-- `DetailView` lookup by slug over the unfiltered queryset: an unknown slug
raises `Http404`; a found row is handed to `get_object`'s body. -/
def detail_view_get (request_user : Requester) (store : List Diary) (slug : String) :
    Except HttpError (Diary × List Email) :=
  match store.find? (fun d => d.slug == slug) with
  | none => Except.error HttpError.notFound
  | some d => get_object request_user d

/-- The `while` loop of `Diary.get_unique_slug` (diary/models.py lines 79-88),
with explicit fuel: starting from the transliterated candidate, as long as a
row with the current candidate slug exists, try `f"{slug}-{num}"` with `num`
incremented. `existing.length + 1` fuel suffices: the candidates are pairwise
distinct, so the loop exits within that many probes. -/
def get_unique_slug_loop (slug : String) (existing : List String) :
    Nat → String → Nat → String
  | 0, unique_slug, _ => unique_slug
  | fuel + 1, unique_slug, num =>
    if existing.contains unique_slug then
      get_unique_slug_loop slug existing fuel (slug ++ "-" ++ toString num) (num + 1)
    else
      unique_slug

/-- `Diary.get_unique_slug` (diary/models.py lines 72-88): transliterate the
title, then suffix `-1`, `-2`, … until no existing row carries the slug. -/
def get_unique_slug (slugify : String → String) (existing : List String)
    (title : String) : String :=
  get_unique_slug_loop (slugify title) existing (existing.length + 1) (slugify title) 1

/-- `Diary.save` (diary/models.py lines 90-100): when `slug` is unset,
generate it with `get_unique_slug` against the slugs already stored; then
persist the row unchanged otherwise. -/
def Diary.save (slugify : String → String) (existing : List String) (d : Diary) : Diary :=
  if d.slug = "" then { d with slug := get_unique_slug slugify existing d.title } else d

/-- `DiaryForm.save(commit=False)` on the create form (diary/forms.py lines
40-60): build a fresh row from the bound `title`/`content` (model defaults:
no slug, no author, `is_published=False`, `status="no_published"`, `views=0`)
and pre-fill `slug = slugify(title)` when unset — without any uniqueness
check. -/
def diaryForm_save_nocommit (slugify : String → String) (title content : String) : Diary :=
  let d : Diary :=
    { title := title, content := content, slug := "", author := none,
      is_published := false, status := Status.no_published, views := 0 }
  if d.slug = "" then { d with slug := slugify d.title } else d

/-- `DiaryCreateView.form_valid` (diary/views.py lines 153-160) restricted to
the row it appends: `form.save(commit=False)`, set `author = request.user`,
then `diary.save()` against the slugs already in the store. -/
def create_diary (slugify : String → String) (existing : List String)
    (request_user : User) (title content : String) : Diary :=
  let d := diaryForm_save_nocommit slugify title content
  Diary.save slugify existing { d with author := some request_user }

/-- `DiaryCreateView.form_valid` at the store level: the new row is appended
to the collection. -/
def create_view_form_valid (slugify : String → String) (store : List Diary)
    (request_user : User) (title content : String) : List Diary :=
  store ++ [create_diary slugify (store.map (fun d => d.slug)) request_user title content]

/-- `DiaryDetailView.post` (diary/views.py lines 122-131): fetch through
`self.get_object()` — running its access check and side effects — and, when
the POST data carries `publish`, set `status = "moderation"` and save. -/
def detail_post (slugify : String → String) (existing : List String)
    (request_user : Requester) (post_has_publish : Bool) (diary : Diary) :
    Except HttpError (Diary × List Email) :=
  match get_object request_user diary with
  | Except.error e => Except.error e
  | Except.ok (d1, emails) =>
    if post_has_publish then
      Except.ok (Diary.save slugify existing { d1 with status := Status.moderation }, emails)
    else
      Except.ok (d1, emails)

/-- `DiaryModerationActionView.post` (diary/views.py lines 268-281) on the
row found by slug: the `PermissionRequiredMixin` guard (`diary.can_moderate`)
raises `PermissionDenied` first; then `approve` sets `status = "published"`
and `is_published = True`, `reject` sets `status = "rejected"` leaving
`is_published` alone, and a POST naming neither field changes nothing. -/
def moderation_post (slugify : String → String) (existing : List String)
    (has_can_moderate : Bool) (post_approve post_reject : Bool) (diary : Diary) :
    Except HttpError Diary :=
  if has_can_moderate = false then
    Except.error HttpError.accessDenied
  else if post_approve then
    Except.ok (Diary.save slugify existing
      { diary with status := Status.published, is_published := true })
  else if post_reject then
    Except.ok (Diary.save slugify existing { diary with status := Status.rejected })
  else
    Except.ok diary

/-- `DiaryUpdateForm.save` applied to an existing row (diary/forms.py lines
98-116 followed by `Diary.save`): replace `title`/`content`, pre-fill the
slug from the new title when unset, then run the model save. -/
def update_form_save (slugify : String → String) (existing : List String)
    (title content : String) (d : Diary) : Diary :=
  let d1 := { d with title := title, content := content }
  let d2 := if d1.slug = "" then { d1 with slug := slugify d1.title } else d1
  Diary.save slugify existing d2

/-- The object lookup shared by `DiaryUpdateView` and `DiaryDeleteView`
(diary/views.py lines 182-186 and 215-219): the queryset is filtered to
`author=request.user`, so a slug outside that filter — including another
user's entry — raises `Http404`, not `PermissionDenied`. -/
def owner_scoped_get_object (request_user : User) (store : List Diary)
    (slug : String) : Except HttpError Diary :=
  match (store.filter (fun d => d.author == some request_user)).find?
      (fun d => d.slug == slug) with
  | none => Except.error HttpError.notFound
  | some d => Except.ok d

/-- `DiaryUpdateView` on the store: on a found (owned) row, apply the update
form to that row in place; on `Http404` the store is unchanged. The result
pairs the request outcome with the post-state of the store. -/
def diary_update_view (slugify : String → String) (request_user : User)
    (store : List Diary) (slug title content : String) :
    Except HttpError Unit × List Diary :=
  match owner_scoped_get_object request_user store slug with
  | Except.error e => (Except.error e, store)
  | Except.ok _ =>
    (Except.ok (),
      store.map (fun d =>
        if d.author == some request_user && d.slug == slug then
          update_form_save slugify (store.map (fun x => x.slug)) title content d
        else d))

/-- `DiaryDeleteView` on the store: on a found (owned) row, hard-delete it;
on `Http404` the store is unchanged. -/
def diary_delete_view (request_user : User) (store : List Diary) (slug : String) :
    Except HttpError Unit × List Diary :=
  match owner_scoped_get_object request_user store slug with
  | Except.error e => (Except.error e, store)
  | Except.ok _ =>
    (Except.ok (),
      store.filter (fun d => !(d.author == some request_user && d.slug == slug)))

/-- A validation failure raised by a form clean hook
(`forms.ValidationError` in users/forms.py). -/
inductive ValidationError
  | password_mismatch
deriving DecidableEq, Repr

/-- A user account row as the registration flow writes it
(users/models.py, users/views.py): `password` records the argument of
`set_password` (the hash input), `is_active` the activation flag, and
`verification_code` the single-use token. -/
structure Account where
  email : String
  password : String
  is_active : Bool
  verification_code : Option String
deriving DecidableEq, Repr

/-- The declared field names of `UserRegisterForm`, in order
(users/forms.py lines 61-70 and `Meta.fields`). -/
def userRegisterFormFields : List String :=
  ["email", "password1", "password2"]

/-- The `clean_<field>` hook names the `UserRegisterForm` class defines
(users/forms.py line 72): only `clean_password`. -/
def userRegisterFormCleanHooks : List String :=
  ["clean_password"]

/-- The body of `UserRegisterForm.clean_password` (users/forms.py lines
72-82): when both passwords are non-empty and differ, raise
`ValidationError("Пароли не совпадают")`; otherwise return `password2`. -/
def clean_password (password1 password2 : String) : Except ValidationError String :=
  if password1 ≠ "" ∧ password2 ≠ "" ∧ password1 ≠ password2 then
    Except.error ValidationError.password_mismatch
  else
    Except.ok password2

/-- Django's field-cleaning dispatch on `UserRegisterForm`: for each declared
field `f`, a hook runs only when the class defines a method literally named
`clean_` ++ `f`. The form's one hook, `clean_password`, matches no field name
(the fields are `password1` and `password2`), so this scans the field list and
runs the mismatch check only if some field name matches it. -/
def register_form_clean_fields (password1 password2 : String) :
    Except ValidationError Unit :=
  if userRegisterFormFields.any
      (fun f => userRegisterFormCleanHooks.contains ("clean_" ++ f)) then
    match clean_password password1 password2 with
    | Except.error e => Except.error e
    | Except.ok _ => Except.ok ()
  else
    Except.ok ()

/-- The confirmation link email of `RegisterView.form_valid`
(users/views.py lines 82-87). -/
def confirmation_email (addr : String) : Email :=
  { subject := "Подтверждение почты", recipient_list := [addr] }

/-- `RegisterView.form_valid` (users/views.py lines 62-88) together with the
form validation that precedes it: a duplicate email fails the ModelForm's
unique check; otherwise, when field cleaning passes, an inactive account is
stored with `set_password(password1)` and the generated verification code,
and a confirmation email is sent. A validation failure leaves the account
store unchanged and sends nothing. -/
def register_view (store : List Account) (email password1 password2 vcode : String) :
    List Account × List Email :=
  if store.any (fun a => a.email == email) then
    (store, [])
  else
    match register_form_clean_fields password1 password2 with
    | Except.error _ => (store, [])
    | Except.ok _ =>
      (store ++ [{ email := email, password := password1, is_active := false,
                   verification_code := some vcode }],
       [confirmation_email email])

/-- One mutation of a single diary row by the HTTP surface, recording only
requests that the view completed (exceptional exits leave the row as it
was): a detail read, a detail POST (submit to moderation), a moderation
approve/reject, or an owner edit through the update form. -/
inductive DiaryStep (slugify : String → String) : Diary → Diary → Prop
  | read (request_user : Requester) (d d' : Diary) (emails : List Email) :
      get_object request_user d = Except.ok (d', emails) →
      DiaryStep slugify d d'
  | submit (existing : List String) (request_user : Requester)
      (post_has_publish : Bool) (d d' : Diary) (emails : List Email) :
      detail_post slugify existing request_user post_has_publish d =
        Except.ok (d', emails) →
      DiaryStep slugify d d'
  | moderate (existing : List String) (has_can_moderate post_approve post_reject : Bool)
      (d d' : Diary) :
      moderation_post slugify existing has_can_moderate post_approve post_reject d =
        Except.ok d' →
      DiaryStep slugify d d'
  | edit (existing : List String) (title content : String) (d : Diary) :
      DiaryStep slugify d (update_form_save slugify existing title content d)

/-- The diary-row states reachable through the application: a row born from
`DiaryCreateView.form_valid`, then any sequence of completed operations. -/
inductive DiaryReachable (slugify : String → String) : Diary → Prop
  | created (existing : List String) (request_user : User) (title content : String) :
      DiaryReachable slugify (create_diary slugify existing request_user title content)
  | step (d d' : Diary) :
      DiaryReachable slugify d → DiaryStep slugify d d' → DiaryReachable slugify d'

-- Concrete sample data for closed instances of the theorems below.

/-- A stand-in for the external transliteration routine, used only to
instantiate the `slugify` parameter on concrete inputs. -/
def slugify_sample (s : String) : String := s

def sample_author : User :=
  { id := 1, email := "author@example.com" }

def sample_other : User :=
  { id := 2, email := "other@example.com" }

/-- An unpublished entry whose view counter already stands at 100. -/
def unpublished100_diary : Diary :=
  { title := "T", content := "C", slug := "t", author := some sample_author,
    is_published := false, status := Status.no_published, views := 100 }

/-- A freshly created unpublished entry of `sample_author`. -/
def unpublished0_diary : Diary :=
  { title := "T", content := "C", slug := "t", author := some sample_author,
    is_published := false, status := Status.no_published, views := 0 }

/-- A published entry whose author row was deleted (`SET_NULL`), one view
short of the notification threshold. -/
def null_author_diary : Diary :=
  { title := "T", content := "C", slug := "t", author := none,
    is_published := true, status := Status.published, views := 99 }

/-- A published entry of `sample_author` with no views yet. -/
def published0_diary : Diary :=
  { title := "T", content := "C", slug := "t", author := some sample_author,
    is_published := true, status := Status.published, views := 0 }

def published0_diary_read : Diary :=
  { published0_diary with views := published0_diary.views + 1 }

/-- The store holding one entry of `sample_author` under slug "t". -/
def sample_store : List Diary := [published0_diary]

/-- The entry state after create → approve under `slugify_sample`. -/
def approved_diary : Diary :=
  { title := "T", content := "C", slug := "T", author := some sample_author,
    is_published := true, status := Status.published, views := 0 }

/-- The entry state after create → approve → reject: still flagged
published. -/
def rejected_published_diary : Diary :=
  { title := "T", content := "C", slug := "T", author := some sample_author,
    is_published := true, status := Status.rejected, views := 0 }

/-- Two consecutive creates with the same title "Test". -/
def create_twice_store : List Diary :=
  create_view_form_valid slugify_sample
    (create_view_form_valid slugify_sample [] sample_author "Test" "first")
    sample_other "Test" "second"

-- Basic shape lemmas about the read path.

theorem notify_step_ok {d d' : Diary} {emails : List Email}
    (h : notify_step d = Except.ok (d', emails)) : d' = d := by
  unfold notify_step at h
  split at h
  · cases hA : d.author <;> rw [hA] at h
    · exact absurd h (by simp)
    · simp only [Except.ok.injEq, Prod.mk.injEq] at h
      exact h.1.symm
  · simp only [Except.ok.injEq, Prod.mk.injEq] at h
    exact h.1.symm

theorem notify_step_ne_accessDenied (d : Diary) :
    notify_step d ≠ Except.error HttpError.accessDenied := by
  unfold notify_step
  split
  · cases d.author <;> simp
  · simp

theorem notify_step_some_author_ok {d : Diary} {a : User} (hA : d.author = some a) :
    ∃ p, notify_step d = Except.ok p := by
  unfold notify_step
  split
  · rw [hA]; exact ⟨_, rfl⟩
  · exact ⟨_, rfl⟩

theorem requestUserEqAuthor_some {ru : Requester} {oa : Option User}
    (h : requestUserEqAuthor ru oa = true) : ∃ a, oa = some a := by
  cases ru <;> cases oa <;> simp_all [requestUserEqAuthor]

theorem get_object_ok_fields {ru : Requester} {d d' : Diary} {emails : List Email}
    (h : get_object ru d = Except.ok (d', emails)) :
    d'.status = d.status ∧ d'.is_published = d.is_published ∧
      d'.author = d.author ∧ d'.slug = d.slug := by
  unfold get_object at h
  split at h
  · exact absurd h (by simp)
  · split at h
    · have := notify_step_ok h
      subst this
      exact ⟨rfl, rfl, rfl, rfl⟩
    · have := notify_step_ok h
      subst this
      exact ⟨rfl, rfl, rfl, rfl⟩

theorem Diary_save_status (slugify : String → String) (existing : List String)
    (d : Diary) : (Diary.save slugify existing d).status = d.status := by
  unfold Diary.save
  split <;> rfl

theorem Diary_save_is_published (slugify : String → String) (existing : List String)
    (d : Diary) : (Diary.save slugify existing d).is_published = d.is_published := by
  unfold Diary.save
  split <;> rfl

theorem update_form_save_status (slugify : String → String) (existing : List String)
    (title content : String) (d : Diary) :
    (update_form_save slugify existing title content d).status = d.status := by
  unfold update_form_save
  rw [Diary_save_status]
  split <;> rfl

theorem update_form_save_is_published (slugify : String → String)
    (existing : List String) (title content : String) (d : Diary) :
    (update_form_save slugify existing title content d).is_published =
      d.is_published := by
  unfold update_form_save
  rw [Diary_save_is_published]
  split <;> rfl

theorem create_diary_is_published (slugify : String → String) (existing : List String)
    (request_user : User) (title content : String) :
    (create_diary slugify existing request_user title content).is_published = false := by
  unfold create_diary
  rw [Diary_save_is_published]
  rfl

theorem get_object_author_ok {request_user : Requester} {diary : Diary}
    (heq : requestUserEqAuthor request_user diary.author = true) :
    ∃ p, get_object request_user diary = Except.ok p := by
  obtain ⟨a, hA⟩ := requestUserEqAuthor_some heq
  unfold get_object
  have hg : ¬(diary.is_published = false ∧
      requestUserEqAuthor request_user diary.author = false) := by
    simp [heq]
  rw [if_neg hg]
  split
  · exact notify_step_some_author_ok
      (show ({ diary with views := diary.views + 1 }).author = some a from hA)
  · exact notify_step_some_author_ok hA

theorem detail_post_ok_fields {slugify : String → String} {existing : List String}
    {request_user : Requester} {post_has_publish : Bool} {d d' : Diary}
    {emails : List Email}
    (h : detail_post slugify existing request_user post_has_publish d =
      Except.ok (d', emails)) :
    d'.is_published = d.is_published ∧
      (d'.status = Status.moderation ∨ d'.status = d.status) := by
  unfold detail_post at h
  split at h
  next x e heq => exact Except.noConfusion h
  next x d1 ems heq =>
    have hf := get_object_ok_fields heq
    split at h
    · injection h with h2
      have hA : Diary.save slugify existing
          { d1 with status := Status.moderation } = d' := congrArg Prod.fst h2
      refine ⟨?_, Or.inl ?_⟩
      · rw [← hA, Diary_save_is_published]
        exact hf.2.1
      · rw [← hA, Diary_save_status]
    · injection h with h2
      have hA : d1 = d' := congrArg Prod.fst h2
      subst hA
      exact ⟨hf.2.1, Or.inr hf.1⟩

theorem moderation_post_ok_fields {slugify : String → String} {existing : List String}
    {has_can_moderate post_approve post_reject : Bool} {d d' : Diary}
    (h : moderation_post slugify existing has_can_moderate post_approve post_reject d =
      Except.ok d') :
    (d'.status = Status.published ∧ d'.is_published = true) ∨
      (d'.status = Status.rejected ∧ d'.is_published = d.is_published) ∨ d' = d := by
  unfold moderation_post at h
  split at h
  · exact Except.noConfusion h
  · split at h
    · injection h with h2
      exact Or.inl ⟨h2 ▸ Diary_save_status .., h2 ▸ Diary_save_is_published ..⟩
    · split at h
      · injection h with h2
        exact Or.inr (Or.inl ⟨h2 ▸ Diary_save_status .., h2 ▸ Diary_save_is_published ..⟩)
      · injection h with h2
        exact Or.inr (Or.inr h2.symm)

theorem owner_scoped_none {request_user : User} {store : List Diary} {slug : String}
    (h : ∀ d ∈ store, d.slug = slug → d.author ≠ some request_user) :
    owner_scoped_get_object request_user store slug =
      Except.error HttpError.notFound := by
  unfold owner_scoped_get_object
  cases hf : (store.filter (fun d => d.author == some request_user)).find?
      (fun d => d.slug == slug) with
  | none => rfl
  | some d =>
    exfalso
    have hmemf := List.mem_of_find?_eq_some hf
    have hslug := List.find?_some hf
    have hmem := List.mem_filter.mp hmemf
    exact h d hmem.1 (by simpa using hslug) (by simpa using hmem.2)

theorem detail_view_get_unknown_slug (request_user : Requester) (slug : String) :
    detail_view_get request_user [] slug = Except.error HttpError.notFound := rfl

/-- C10: the entry-detail read is total only when the entry has an author.
For every published entry whose author reference is NULL (permitted by the
`SET_NULL` delete rule) and whose view-count after the increment reaches 100,
`get_object` fails with the unguarded dereference of `diary.author.email`
instead of returning the entry. -/
theorem published_null_author_read_crashes (request_user : Requester) (diary : Diary)
    (hp : diary.is_published = true) (ha : diary.author = none)
    (hv : diary.views + 1 ≥ 100) :
    get_object request_user diary = Except.error HttpError.nullDeref := by
  simp [get_object, notify_step, hp, ha, hv]

/-- Witness for C10 at a concrete input: a published entry with a deleted
author and 99 prior views. -/
theorem published_null_author_read_crashes_witness :
    get_object Requester.anonymous null_author_diary =
      Except.error HttpError.nullDeref :=
  published_null_author_read_crashes Requester.anonymous null_author_diary
    rfl rfl (by decide)

/-- C3: every successful read of a published entry increments the view-count
by exactly one (the relative update `views = F("views") + 1` on the stored
row), and exactly when the resulting count reaches 100 a single notification
email addressed to the entry's author is sent for that read — with no
deduplication state anywhere, so every qualifying read re-sends. -/
theorem published_read_increments_and_notifies (request_user : Requester)
    (diary d' : Diary) (emails : List Email)
    (hp : diary.is_published = true)
    (h : get_object request_user diary = Except.ok (d', emails)) :
    d'.views = diary.views + 1 ∧
      (d'.views ≥ 100 →
        ∃ a, diary.author = some a ∧ emails = [notification_email a.email]) ∧
      (d'.views < 100 → emails = []) := by
  unfold get_object at h
  rw [if_neg (by simp [hp]), if_pos hp] at h
  have hd := notify_step_ok h
  subst hd
  refine ⟨rfl, ?_, ?_⟩ <;> unfold notify_step at h <;> split at h
  · intro _
    cases hA : diary.author <;> rw [show ({ diary with views := diary.views + 1 } :
        Diary).author = diary.author from rfl, hA] at h
    · exact Except.noConfusion h
    · next a =>
      injection h with h2
      exact ⟨a, rfl, (congrArg Prod.snd h2).symm⟩
  · intro hge
    next hc => exact absurd hge hc
  · intro hlt
    next hc => exact absurd hc (by omega)
  · intro _
    injection h with h2
    exact (congrArg Prod.snd h2).symm

/-- Witness for C3 at a concrete input: reading `sample_author`'s published
entry with 0 prior views yields views 1 and no email. -/
theorem published_read_increments_witness :
    published0_diary_read.views = published0_diary.views + 1 ∧
      (published0_diary_read.views ≥ 100 →
        ∃ a, published0_diary.author = some a ∧
          ([] : List Email) = [notification_email a.email]) ∧
      (published0_diary_read.views < 100 → ([] : List Email) = []) :=
  published_read_increments_and_notifies Requester.anonymous published0_diary
    published0_diary_read [] rfl rfl

/-- C5: for a holder of the `diary.can_moderate` capability, an `approve`
POST sets the entry's status to `published` and its published flag to true,
and a `reject` POST sets the status to `rejected` and leaves the published
flag unchanged — with no precondition on the entry's prior status. -/
theorem moderation_approve_reject_effects (slugify : String → String)
    (existing : List String) (diary : Diary) :
    (∃ d', moderation_post slugify existing true true false diary = Except.ok d' ∧
      d'.status = Status.published ∧ d'.is_published = true) ∧
    (∃ d', moderation_post slugify existing true false true diary = Except.ok d' ∧
      d'.status = Status.rejected ∧ d'.is_published = diary.is_published) :=
  ⟨⟨Diary.save slugify existing
      { diary with status := Status.published, is_published := true },
    rfl, Diary_save_status .., Diary_save_is_published ..⟩,
   ⟨Diary.save slugify existing { diary with status := Status.rejected },
    rfl, Diary_save_status .., Diary_save_is_published ..⟩⟩

/-- C1 (amended): a read of an unpublished entry that completes never changes
the stored row — in particular it never increments the view-count — and sends
no notification email provided the entry's view-count is below 100. (An
unpublished entry whose counter already stands at 100 or more does trigger
the notification on an author read: see the counterexample.) -/
theorem unpublished_read_no_increment (request_user : Requester)
    (diary d' : Diary) (emails : List Email)
    (hp : diary.is_published = false)
    (h : get_object request_user diary = Except.ok (d', emails)) :
    d' = diary ∧ (diary.views < 100 → emails = []) := by
  unfold get_object at h
  rw [hp] at h
  split at h
  · exact Except.noConfusion h
  · rw [if_neg (by simp [hp])] at h
    have hd := notify_step_ok h
    subst hd
    refine ⟨rfl, fun hlt => ?_⟩
    unfold notify_step at h
    rw [if_neg (by omega)] at h
    injection h with h2
    exact (congrArg Prod.snd h2).symm

/-- Witness for C1 at a concrete input: the author reading their own
unpublished entry with 0 views gets the unchanged row and no email. -/
theorem unpublished_read_no_increment_witness :
    unpublished0_diary = unpublished0_diary ∧
      (unpublished0_diary.views < 100 → ([] : List Email) = []) :=
  unpublished_read_no_increment (Requester.user sample_author)
    unpublished0_diary unpublished0_diary [] rfl rfl

/-- Counterexample to C1 as stated: the notification guard
(diary/views.py line 107) sits outside the `is_published` branch, so the
author reading their own unpublished entry whose counter already stands at
100 receives a notification email — the read does not "never notify". -/
theorem unpublished_read_notifies_counterexample :
    unpublished100_diary.is_published = false ∧
    get_object (Requester.user sample_author) unpublished100_diary =
      Except.ok (unpublished100_diary, [notification_email "author@example.com"]) :=
  ⟨rfl, rfl⟩

/-- C2 (amended): the single-entry read rejects with `PermissionDenied`
exactly when the entry is unpublished and the requester is not its author —
a rejection distinct from not-found — and the owner can always read their own
entry, published or not. (When the access check passes, the read can still
fail: a published entry with a NULL author whose incremented counter reaches
100 crashes on the notification address — see the counterexample and C10.) -/
theorem detail_read_access_spec (request_user : Requester) (diary : Diary) :
    (get_object request_user diary = Except.error HttpError.accessDenied ↔
      diary.is_published = false ∧
        requestUserEqAuthor request_user diary.author = false) ∧
    (requestUserEqAuthor request_user diary.author = true →
      ∃ p, get_object request_user diary = Except.ok p) ∧
    HttpError.accessDenied ≠ HttpError.notFound := by
  refine ⟨⟨fun h => ?_, fun hc => ?_⟩, fun heq => get_object_author_ok heq, by simp⟩
  · by_contra hc
    unfold get_object at h
    rw [if_neg hc] at h
    split at h
    · exact notify_step_ne_accessDenied _ h
    · exact notify_step_ne_accessDenied _ h
  · unfold get_object
    rw [if_pos hc]

/-- Counterexample to C2 as stated: a published entry whose author row was
deleted and whose counter stands one short of the threshold is readable per
the claim ("succeeds if the entry is published"), yet the read fails — with
the NULL dereference, not with `AccessDenied`. -/
theorem published_read_null_author_counterexample :
    null_author_diary.is_published = true ∧
    get_object Requester.anonymous null_author_diary =
      Except.error HttpError.nullDeref ∧
    HttpError.nullDeref ≠ HttpError.accessDenied :=
  ⟨rfl, rfl, by simp⟩

/-- C4 (amended): a `publish` POST that completes always leaves the entry in
status `moderation` (pending moderation), whatever its prior status; and the
entry's owner can always perform it. Ownership is, however, only enforced for
unpublished entries — the submit runs after `get_object`'s visibility check,
so any requester can submit a published entry (see the counterexample). -/
theorem submit_sets_moderation_status (slugify : String → String)
    (existing : List String) (request_user : Requester) (diary : Diary) :
    (∀ d' emails,
      detail_post slugify existing request_user true diary =
        Except.ok (d', emails) →
      d'.status = Status.moderation) ∧
    (requestUserEqAuthor request_user diary.author = true →
      ∃ d' emails,
        detail_post slugify existing request_user true diary =
          Except.ok (d', emails) ∧
        d'.status = Status.moderation) := by
  constructor
  · intro d' emails h
    unfold detail_post at h
    split at h
    next x e heq => exact Except.noConfusion h
    next x d1 ems heq =>
      rw [if_pos rfl] at h
      injection h with h2
      have hA : Diary.save slugify existing
          { d1 with status := Status.moderation } = d' := congrArg Prod.fst h2
      rw [← hA, Diary_save_status]
  · intro heq
    obtain ⟨⟨d1, ems⟩, hg⟩ := get_object_author_ok heq
    refine ⟨Diary.save slugify existing { d1 with status := Status.moderation },
      ems, ?_, Diary_save_status ..⟩
    unfold detail_post
    rw [hg]
    rfl

/-- Counterexample to C4 as stated: `DiaryDetailView` carries no login or
ownership guard, so a requester who is not the author successfully submits a
published entry to moderation (the visibility check only blocks non-authors
on unpublished entries). -/
theorem nonowner_submit_published_counterexample :
    requestUserEqAuthor (Requester.user sample_other) published0_diary.author = false ∧
    detail_post slugify_sample [] (Requester.user sample_other) true
        published0_diary =
      Except.ok ({ published0_diary with views := 1, status := Status.moderation },
        []) := by
  refine ⟨by decide, ?_⟩
  rfl

/-- C9 (amended): an update or delete request on an entry whose author is not
the requester fails with `Http404` (not-found) — the owner-filtered queryset
hides the entry, so the rejection is indistinguishable from an unknown
slug — and the store is unchanged. -/
theorem foreign_entry_update_delete_not_found (slugify : String → String)
    (request_user : User) (store : List Diary) (slug title content : String)
    (h : ∀ d ∈ store, d.slug = slug → d.author ≠ some request_user) :
    diary_update_view slugify request_user store slug title content =
      (Except.error HttpError.notFound, store) ∧
    diary_delete_view request_user store slug =
      (Except.error HttpError.notFound, store) := by
  have hn := owner_scoped_none h
  constructor
  · unfold diary_update_view
    rw [hn]
  · unfold diary_delete_view
    rw [hn]

/-- Witness for C9 at a concrete input: `sample_other` updating or deleting
`sample_author`'s entry. -/
theorem foreign_entry_update_delete_witness :
    diary_update_view slugify_sample sample_other sample_store "t" "T2" "C2" =
      (Except.error HttpError.notFound, sample_store) ∧
    diary_delete_view sample_other sample_store "t" =
      (Except.error HttpError.notFound, sample_store) :=
  foreign_entry_update_delete_not_found slugify_sample sample_other sample_store
    "t" "T2" "C2" (by decide)

/-- Counterexample to C9 as stated: the failure `sample_other` receives when
updating `sample_author`'s entry is `Http404`, not the `AccessDenied` the
claim requires. -/
theorem foreign_entry_update_notfound_counterexample :
    (diary_update_view slugify_sample sample_other sample_store "t" "T2" "C2").1 =
      Except.error HttpError.notFound ∧
    (diary_update_view slugify_sample sample_other sample_store "t" "T2" "C2").1 ≠
      Except.error HttpError.accessDenied := by
  constructor
  · rfl
  · intro hc
    rw [show (diary_update_view slugify_sample sample_other sample_store
      "t" "T2" "C2").1 = Except.error HttpError.notFound from rfl] at hc
    injection hc with h2
    exact HttpError.noConfusion h2

/-- C8 (code bug): registering with mismatched passwords nevertheless creates
an inactive account holding `password1`, because Django only invokes clean
hooks named `clean_<field>` for an existing field — the form's fields are
`password1` and `password2`, so the `clean_password` hook is dead code. The
second conjunct shows the dead hook itself would have raised the
ValidationError the claim (and the hook's own docstring) describe. -/
theorem register_mismatch_creates_account :
    register_view [] "user@example.com" "secret111" "different" "c0de" =
      ([{ email := "user@example.com", password := "secret111",
          is_active := false, verification_code := some "c0de" }],
       [confirmation_email "user@example.com"]) ∧
    clean_password "secret111" "different" =
      Except.error ValidationError.password_mismatch := by
  constructor
  · rfl
  · rfl

/-- C7 (code bug): two successive creates through the entry form with the
same title both store the bare transliterated slug — `DiaryForm.save`
pre-fills `slug = slugify(title)` with no uniqueness check, so the model
save's `get_unique_slug` guard never fires and the slug-uniqueness invariant
is violated. The last conjunct shows `get_unique_slug` itself would have
suffixed the second slug to "Test-1" had it been consulted. -/
theorem duplicate_slug_on_create_path :
    create_twice_store.map (fun d => d.slug) = ["Test", "Test"] ∧
    get_unique_slug slugify_sample ["Test"] "Test" = "Test-1" := by
  constructor
  · rfl
  · rfl

/-- C6 (amended): the invariant that actually holds of every reachable entry
state is weaker than the claim: an entry flagged `is_published = true` never
carries the initial status `no_published` (it has been approved at some
point), but its status need not be `published` — a `publish` POST or a
moderator reject on an already-published entry moves the status to
`moderation` or `rejected` while leaving the flag set (see the
counterexample). -/
theorem reachable_published_flag_status (slugify : String → String) (d : Diary)
    (hr : DiaryReachable slugify d) :
    d.is_published = true → d.status ≠ Status.no_published := by
  induction hr with
  | created ex ru t c =>
    intro hp
    rw [create_diary_is_published] at hp
    exact Bool.noConfusion hp
  | step d d' hr hs ih =>
    intro hp
    cases hs with
    | read ru x x' emails h =>
      have hf := get_object_ok_fields h
      rw [hf.1]
      exact ih (hf.2.1.symm.trans hp)
    | submit ex ru pub x x' emails h =>
      have hf := detail_post_ok_fields h
      cases hf.2 with
      | inl hst =>
        rw [hst]
        exact fun hc => Status.noConfusion hc
      | inr hst =>
        rw [hst]
        exact ih (hf.1.symm.trans hp)
    | moderate ex hcm pa pr x x' h =>
      rcases moderation_post_ok_fields h with ⟨hst, _⟩ | ⟨hst, hpub⟩ | heq
      · rw [hst]
        exact fun hc => Status.noConfusion hc
      · rw [hst]
        exact fun hc => Status.noConfusion hc
      · rw [heq] at hp ⊢
        exact ih hp
    | edit ex t c =>
      rw [update_form_save_status]
      exact ih ((update_form_save_is_published slugify ex t c d).symm.trans hp)

/-- Witness for C6 at a concrete state: the entry reached by create → approve
is flagged published and does not carry the initial status. -/
theorem reachable_published_flag_status_witness :
    approved_diary.status ≠ Status.no_published :=
  reachable_published_flag_status slugify_sample approved_diary
    (DiaryReachable.step _ _
      (DiaryReachable.created [] sample_author "T" "C")
      (DiaryStep.moderate [] true true false _ _ rfl))
    rfl

/-- Counterexample to C6 as stated: create → approve → reject reaches a state
with `is_published = true` and status `rejected`, so the claimed invariant
"published flag implies status published" does not hold of all reachable
states. -/
theorem reject_published_breaks_invariant_counterexample :
    DiaryReachable slugify_sample rejected_published_diary ∧
    rejected_published_diary.is_published = true ∧
    rejected_published_diary.status ≠ Status.published :=
  ⟨DiaryReachable.step _ _
      (DiaryReachable.step _ _
        (DiaryReachable.created [] sample_author "T" "C")
        (DiaryStep.moderate [] true true false _ _ rfl))
      (DiaryStep.moderate [] true false true _ _ rfl),
    rfl, fun hc => Status.noConfusion hc⟩
